import Mathlib

/-!
Verification development for the SolanaAlphaTool repository: a pump.fun
token-launch alert pipeline (frame decoder, filter evaluator, rate limiter,
dispatcher) plus the Eliza ingest HTTP server. Pure functions of the source
are embedded shallowly; bytes are `Nat` values below 256, byte strings are
`List Nat`, machine reads are explicit little-endian arithmetic.
-/

namespace SolanaAlphaTool

/-! ## Byte-level primitives (little-endian, as used by the create-instruction codec) -/

/-- Read a little-endian natural number from a list of bytes. -/
def fromLE (l : List Nat) : Nat :=
  l.foldr (fun b acc => b + 256 * acc) 0

/-- Write `n` as `k` little-endian bytes (truncating above `256 ^ k`). -/
def toLE : Nat → Nat → List Nat
  | 0, _ => []
  | k + 1, n => (n % 256) :: toLE k (n / 256)

/-- Take exactly `k` bytes from the front of a byte list, failing on truncation. -/
def readBytes (k : Nat) (l : List Nat) : Option (List Nat × List Nat) :=
  if k ≤ l.length then some (l.take k, l.drop k) else none

/-- Read a 4-byte little-endian length, then that many bytes (a length-prefixed string). -/
def readLenStr (l : List Nat) : Option (List Nat × List Nat) :=
  match readBytes 4 l with
  | none => none
  | some (lenB, rest) => readBytes (fromLE lenB) rest

/-- The fixed discriminator identifying the pump.fun "create" instruction
(`CREATE_DISCRIMINATOR` in the monitor code). -/
def CREATE_DISCRIMINATOR : Nat := 8530921459188068891

/-- Structured fields of a decoded create instruction: three length-prefixed
strings followed by three 32-byte addresses. -/
structure CreateFields where
  name : List Nat
  symbol : List Nat
  uri : List Nat
  mintAddress : List Nat
  bondingCurveAddress : List Nat
  creatorAddress : List Nat
deriving DecidableEq

/-- Modelled from the spec: `LogsEventProcessor._parse_create_instruction`
(the Python module itself is not under src/; src documents it in
MONITOR_ANALYSIS and WEBHOOK_SETUP_GUIDE). Steps 3 and 4 of the Frame
Decoder: check the first 8 bytes read little-endian against the fixed
create discriminator, yielding no event on mismatch, then decode
length-prefixed strings name, symbol, uri and fixed-width 32-byte
addresses mint, bonding curve, creator; truncation yields `none`
(a dropped frame), never an exception. -/
def parseCreateInstruction (data : List Nat) : Option CreateFields :=
  match readBytes 8 data with
  | none => none
  | some (discB, r0) =>
    if fromLE discB = CREATE_DISCRIMINATOR then
      match readLenStr r0 with
      | none => none
      | some (nameB, r1) =>
        match readLenStr r1 with
        | none => none
        | some (symbolB, r2) =>
          match readLenStr r2 with
          | none => none
          | some (uriB, r3) =>
            match readBytes 32 r3 with
            | none => none
            | some (mintB, r4) =>
              match readBytes 32 r4 with
              | none => none
              | some (bondingB, r5) =>
                match readBytes 32 r5 with
                | none => none
                | some (creatorB, _) =>
                  some ⟨nameB, symbolB, uriB, mintB, bondingB, creatorB⟩
    else
      none

/-- A length-prefixed string: 4-byte little-endian length then the bytes. -/
def lenStr (s : List Nat) : List Nat := toLE 4 s.length ++ s

/-- Modelled from the spec: the create-instruction payload layout (Frame
Decoder step 4) — discriminator, length-prefixed name, symbol, uri, then
the three fixed-width 32-byte addresses. -/
def encodeCreateInstruction (e : CreateFields) : List Nat :=
  toLE 8 CREATE_DISCRIMINATOR ++
    (lenStr e.name ++ (lenStr e.symbol ++ (lenStr e.uri ++
      (e.mintAddress ++ (e.bondingCurveAddress ++ e.creatorAddress)))))

/-- Well-formedness of create fields: string lengths fit the 4-byte length
prefix and addresses are exactly 32 bytes wide. -/
def WellFormedCreate (e : CreateFields) : Prop :=
  e.name.length < 256 ^ 4 ∧ e.symbol.length < 256 ^ 4 ∧ e.uri.length < 256 ^ 4 ∧
    e.mintAddress.length = 32 ∧ e.bondingCurveAddress.length = 32 ∧
    e.creatorAddress.length = 32

/-! ## Filter Evaluator (spec section 4.3) -/

/-- A decoded creation event as consumed by the filter; textual fields are
lists of characters so that case-insensitive substring matching is explicit. -/
structure CreationEvent where
  signature : List Char
  name : List Char
  symbol : List Char
  uri : List Char
  mintAddress : List Char
  bondingCurveAddress : List Char
  associatedCurveAddress : List Char
  creatorAddress : List Char
  observedAt : Nat
deriving DecidableEq

/-- Operator-supplied filter configuration (spec section 3). Unconfigured
length bounds are `none`; unconfigured keyword / block / allowlist sets are
empty lists. -/
structure FilterConfig where
  nameContains : List (List Char)
  symbolContains : List (List Char)
  blockedWords : List (List Char)
  creatorAllowlist : List (List Char)
  minNameLength : Option Nat
  maxNameLength : Option Nat
deriving DecidableEq

inductive RejectReason where
  | BlockedWord
  | LengthOutOfRange
  | CreatorNotAllowed
  | NoKeywordMatch
deriving DecidableEq

inductive FilterResult where
  | Pass
  | Reject (reason : RejectReason)
deriving DecidableEq

/-- Lower-case a character list. -/
def lcList (s : List Char) : List Char := s.map Char.toLower

/-- True exactly when the second list is an initial segment of the first. -/
def startsWithCL : List Char → List Char → Bool
  | _, [] => true
  | [], _ :: _ => false
  | c :: cs, n :: ns => c == n && startsWithCL cs ns

/-- True exactly when the needle (first argument) occurs contiguously in the haystack. -/
def hasSubCL (needle : List Char) : List Char → Bool
  | [] => startsWithCL [] needle
  | c :: cs => startsWithCL (c :: cs) needle || hasSubCL needle cs

/-- Case-insensitive substring match of a configured keyword against a text field. -/
def kwMatch (k text : List Char) : Bool := hasSubCL (lcList k) (lcList text)

/-- Check 1: a blocked word occurs (case-insensitively) in the name or the symbol. -/
def blockedHit (c : FilterConfig) (e : CreationEvent) : Bool :=
  c.blockedWords.any (fun w => kwMatch w e.name || kwMatch w e.symbol)

/-- Check 2: the name length violates a configured bound. -/
def lengthBad (c : FilterConfig) (e : CreationEvent) : Bool :=
  (match c.minNameLength with
   | some m => decide (e.name.length < m)
   | none => false) ||
  (match c.maxNameLength with
   | some m => decide (m < e.name.length)
   | none => false)

/-- Check 3: the allowlist is non-empty and the creator is not listed. -/
def creatorBad (c : FilterConfig) (e : CreationEvent) : Bool :=
  !c.creatorAllowlist.isEmpty && !(c.creatorAllowlist.any (fun a => a == e.creatorAddress))

/-- Check 4: some keyword set is configured and no configured keyword
substring-matches the name or the symbol. -/
def keywordBad (c : FilterConfig) (e : CreationEvent) : Bool :=
  (!c.nameContains.isEmpty || !c.symbolContains.isEmpty) &&
  !((c.nameContains ++ c.symbolContains).any (fun k => kwMatch k e.name || kwMatch k e.symbol))

/-- Modelled from the spec: the Filter Evaluator of section 4.3 (the Python
module `signal_alert_bot.py` is not under src/; src documents its pipeline
order in QUICK_START). Checks run in the fixed order blocked-word,
name-length, creator-allowlist, keyword-match, first match wins. -/
def applyFilters (e : CreationEvent) (c : FilterConfig) : FilterResult :=
  if blockedHit c e then .Reject .BlockedWord
  else if lengthBad c e then .Reject .LengthOutOfRange
  else if creatorBad c e then .Reject .CreatorNotAllowed
  else if keywordBad c e then .Reject .NoKeywordMatch
  else .Pass

/-! ## Rate Limiter (spec section 4.4) -/

structure RateLimitConfig where
  maxPerWindow : Nat
  windowDuration : Nat
  minSpacing : Nat
deriving DecidableEq

/-- Rate-limiter state: timestamps of past admissions, most recent first. -/
structure RateLimitState where
  admissions : List Nat
deriving DecidableEq

inductive RateDecision where
  | Admit
  | RateLimitDrop
deriving DecidableEq

/-- Number of admissions inside the trailing window ending at `now`. -/
def windowCount (cfg : RateLimitConfig) (now : Nat) (st : RateLimitState) : Nat :=
  (st.admissions.filter (fun a => now < a + cfg.windowDuration)).length

/-- At least `minSpacing` has elapsed since the last admission (vacuously
true when nothing was admitted yet). -/
def spacingOk (cfg : RateLimitConfig) (now : Nat) (st : RateLimitState) : Bool :=
  match st.admissions with
  | [] => true
  | last :: _ => decide (last + cfg.minSpacing ≤ now)

/-- Modelled from the spec: the sliding-window Rate Limiter of section 4.4
(the Python implementation is not under src/). An event passed by the
filter is admitted exactly when fewer than `maxPerWindow` admissions lie in
the trailing window and `minSpacing` has elapsed since the last admission;
otherwise it is dropped with `RateLimitDrop` and the state is unchanged. -/
def rlSubmit (cfg : RateLimitConfig) (now : Nat) (st : RateLimitState) :
    RateDecision × RateLimitState :=
  if windowCount cfg now st < cfg.maxPerWindow ∧ spacingOk cfg now st = true then
    (.Admit, ⟨now :: st.admissions⟩)
  else
    (.RateLimitDrop, st)

/-- Feed a list of submission timestamps through the limiter, collecting decisions. -/
def runSubmissions (cfg : RateLimitConfig) : List Nat → RateLimitState → List RateDecision
  | [], _ => []
  | t :: ts, st =>
    let r := rlSubmit cfg t st
    r.1 :: runSubmissions cfg ts r.2

/-! ## Dispatcher delivery-outcome classification (spec section 4.5) -/

/-- The single observation a delivery attempt makes: a network error, a
timeout, or an HTTP status code. -/
inductive HttpResult where
  | netError
  | timeout
  | status (code : Nat)
deriving DecidableEq

inductive Outcome where
  | Success
  | TransientFailure
  | PermanentFailure
deriving DecidableEq

/-- Modelled from the spec: outcome classification of one delivery attempt
(section 4.5; the Python delivery code is not under src/). 2xx is success;
network error, timeout, 429 and 5xx are transient; everything else is
permanent and never retried. -/
def classifyOutcome : HttpResult → Outcome
  | .netError => .TransientFailure
  | .timeout => .TransientFailure
  | .status code =>
    if 200 ≤ code ∧ code < 300 then .Success
    else if code = 429 ∨ (500 ≤ code ∧ code < 600) then .TransientFailure
    else .PermanentFailure

/-- The response classes the spec taxonomy enumerates: network error,
timeout, or a status in 2xx, 4xx or 5xx (the spec assigns no outcome to
1xx or 3xx responses). -/
def specCovered : HttpResult → Bool
  | .netError => true
  | .timeout => true
  | .status code =>
    decide ((200 ≤ code ∧ code < 300) ∨ (400 ≤ code ∧ code < 500) ∨ (500 ≤ code ∧ code < 600))

/-- The response is a 2xx status. -/
def is2xxResult : HttpResult → Prop
  | .status code => 200 ≤ code ∧ code < 300
  | _ => False

/-- The response is a network error, a timeout, a 429, or a 5xx status. -/
def isTransientCase : HttpResult → Prop
  | .netError => True
  | .timeout => True
  | .status code => code = 429 ∨ (500 ≤ code ∧ code < 600)

/-- The response is a 4xx status other than 429. -/
def isPlain4xx : HttpResult → Prop
  | .status code => 400 ≤ code ∧ code < 500 ∧ code ≠ 429
  | _ => False

/-! ## JSON values (shared by the webhook renderer and the Eliza server) -/

/-- A JSON value. -/
inductive JVal where
  | jNull
  | jBool (b : Bool)
  | jNum (n : Int)
  | jStr (s : String)
  | jArr (items : List JVal)
  | jObj (fields : List (String × JVal))

/-- First value bound to key `k` in a JSON object field list. -/
def lookupField (fields : List (String × JVal)) (k : String) : Option JVal :=
  match fields with
  | [] => none
  | (k2, v) :: rest => if k2 = k then some v else lookupField rest k

/-! ## Generic webhook payload (spec section 6 and WEBHOOK_SETUP_GUIDE) -/

/-- Token data available when rendering an alert; `none` marks upstream data
that is absent. -/
structure TokenInfo where
  name : Option String
  symbol : Option String
  mintAddress : Option String
  creatorAddress : Option String
  bondingCurve : Option String
  associatedBondingCurve : Option String
  metadataUri : Option String
  transactionSignature : Option String
  launchTime : Option String

/-- A `TokenInfo` with every upstream field absent. -/
def emptyTokenInfo : TokenInfo := ⟨none, none, none, none, none, none, none, none, none⟩

/-- The generic-webhook JSON payload, embedded from the documented payload
in src/apps/pumpfun-bot/WEBHOOK_SETUP_GUIDE.md (Generic JSON Payload): the
top-level `alert_type` is the string `pump_fun_token_launch`, and the token
object carries, besides the nine data fields, the derived `pump_fun_url`
and `solscan_url` links. Absent upstream data renders as the empty string
(spec section 6), never as a missing key. -/
def renderGenericWebhook (t : TokenInfo) (timestamp : String) : JVal :=
  .jObj [("alert_type", .jStr "pump_fun_token_launch"),
         ("timestamp", .jStr timestamp),
         ("token", .jObj [
            ("name", .jStr (t.name.getD "")),
            ("symbol", .jStr (t.symbol.getD "")),
            ("mint_address", .jStr (t.mintAddress.getD "")),
            ("creator_address", .jStr (t.creatorAddress.getD "")),
            ("bonding_curve", .jStr (t.bondingCurve.getD "")),
            ("associated_bonding_curve", .jStr (t.associatedBondingCurve.getD "")),
            ("metadata_uri", .jStr (t.metadataUri.getD "")),
            ("transaction_signature", .jStr (t.transactionSignature.getD "")),
            ("launch_time", .jStr (t.launchTime.getD "")),
            ("pump_fun_url", .jStr ("https://pump.fun/" ++ t.mintAddress.getD "")),
            ("solscan_url", .jStr ("https://solscan.io/tx/" ++ t.transactionSignature.getD ""))])]

/-- Top-level key list of a JSON object. -/
def topKeys : JVal → List String
  | .jObj fields => fields.map Prod.fst
  | _ => []

/-- The string value of the top-level `alert_type` field, when present. -/
def alertTypeStrOf (j : JVal) : Option String :=
  match j with
  | .jObj fields =>
    match lookupField fields "alert_type" with
    | some (.jStr s) => some s
    | _ => none
  | _ => none

/-- Key list of the nested `token` object. -/
def tokenKeysOf (j : JVal) : List String :=
  match j with
  | .jObj fields =>
    match lookupField fields "token" with
    | some (.jObj tf) => tf.map Prod.fst
    | _ => []
  | _ => []

/-- The string value of key `k` inside the nested `token` object, when present. -/
def tokenFieldStr (j : JVal) (k : String) : Option String :=
  match j with
  | .jObj fields =>
    match lookupField fields "token" with
    | some (.jObj tf) =>
      match lookupField tf k with
      | some (.jStr s) => some s
      | _ => none
    | _ => none
  | _ => none

/-- The token-object key set of the canonical schema in spec section 6. -/
def specTokenKeys : List String :=
  ["name", "symbol", "mint_address", "creator_address", "bonding_curve",
   "associated_bonding_curve", "metadata_uri", "transaction_signature", "launch_time"]

/-- A sample token filled with the example values of WEBHOOK_SETUP_GUIDE. -/
def sampleTokenInfo : TokenInfo :=
  ⟨some "DogeCoin2.0", some "DOGE2",
   some "7xKXtg2CW87d97TXJSDpbD5jBkheTqA83TZRuJosgAsU",
   some "9WzDXwBbmkg8ZTbNMqUxvQRAyrZzDsGYdLVL9zYtAWWM",
   some "CebN5uJmj6F7vG2jNjbbCs5DXksJgNpGPq4q9DGoPWd1",
   some "5Q544fKrFoe6tsEbD7S8EmxGTJYAKtTVhAWWM",
   some "https://pump.fun/meta/7xKXtg2.json",
   some "5J8YU7v4gW2KgjsXP1uFYEjyG3jKGN4w9L4z8YVyXzLmK3NJxP6Dx9TcRbGFfMsW8xYu7V6kN1mL2FhZq5P4wQ8T",
   some "2025-07-12T23:45:30.123456"⟩

/-! ## Eliza ingest server (src/apps/eliza/server/index.ts) -/

/-- Maximum number of events retained by the in-memory store (`MAX_EVENTS`). -/
def MAX_EVENTS : Nat := 500

/-- One stored event: a `ts` timestamp plus the ingested payload. The JS
code stores the object spread `ts, ...payload`; the effective `ts` field is
modelled as a single `Nat`, which is all the handlers below inspect. -/
structure ElizaEvent where
  ts : Nat
  payload : JVal

/-- JavaScript truthiness of a parsed JSON body (`req.body ? 1 : 0`). -/
def jsTruthy : JVal → Bool
  | .jNull => false
  | .jBool b => b
  | .jNum n => n != 0
  | .jStr s => s != ""
  | .jArr _ => true
  | .jObj _ => true

/-- The body is a JSON array (`Array.isArray(req.body)`). -/
def isArrB : JVal → Bool
  | .jArr _ => true
  | _ => false

/-- Push one event, then drop the oldest when the store exceeds
`MAX_EVENTS` (`EVENTS.push(...)` followed by `EVENTS.shift()`). -/
def pushCap (evs : List ElizaEvent) (e : ElizaEvent) : List ElizaEvent :=
  let evs2 := evs ++ [e]
  if MAX_EVENTS < evs2.length then evs2.drop 1 else evs2

/-- The POST /ingest handler: an array body appends each element as an
event (capped); a non-array body only computes the acknowledgment count,
1 when truthy and 0 otherwise, and stores nothing. Returns the new store
and the `count` of the `ok: true` response. -/
def ingestHandler (evs : List ElizaEvent) (now : Nat) (body : JVal) :
    List ElizaEvent × Nat :=
  match body with
  | .jArr items =>
    (items.foldl (fun acc p => pushCap acc ⟨now, p⟩) evs, items.length)
  | b => (evs, if jsTruthy b then 1 else 0)

/-- The fixed event pushed by POST /api/seed. -/
def seedEvent (now : Nat) : ElizaEvent :=
  ⟨now, .jObj [("symbol", .jStr "SEED"), ("name", .jStr "Seed Event"),
               ("mint", .jStr "SeedMint"), ("creator", .jStr "Seed"),
               ("tx", .jStr "SeedTx")]⟩

/-- The POST /api/seed handler: push the seed event, then splice the front
of the store down to `MAX_EVENTS` when it exceeds the bound. -/
def seedHandler (evs : List ElizaEvent) (now : Nat) : List ElizaEvent :=
  let evs2 := evs ++ [seedEvent now]
  if MAX_EVENTS < evs2.length then evs2.drop (evs2.length - MAX_EVENTS) else evs2

/-- The `since` query parameter as received: absent, non-numeric, or a number. -/
inductive SinceParam where
  | absent
  | nonNumeric
  | value (n : Int)

/-- Effective since value, as computed by Number(req.query.since) || 0:
absent and non-numeric parse to NaN,
and `NaN || 0` is 0; the numeric value 0 also falls through to 0. -/
def effSince : SinceParam → Int
  | .absent => 0
  | .nonNumeric => 0
  | .value n => if n = 0 then 0 else n

/-- The GET /api/events handler: the stored events whose `ts` is strictly
greater than the effective `since` value. -/
def getEventsHandler (evs : List ElizaEvent) (q : SinceParam) : List ElizaEvent :=
  evs.filter (fun e => effSince q < (e.ts : Int))

/-! ### Lemmas about the primitives -/

theorem toLE_length (k n : Nat) : (toLE k n).length = k := by
  induction k generalizing n with
  | zero => rfl
  | succ k ih => simp [toLE, ih]

theorem fromLE_toLE (k n : Nat) (h : n < 256 ^ k) : fromLE (toLE k n) = n := by
  induction k generalizing n with
  | zero =>
    simp [Nat.pow_zero, Nat.lt_one_iff] at h
    simp [h, toLE, fromLE]
  | succ k ih =>
    have hdiv : n / 256 < 256 ^ k := by
      rw [Nat.div_lt_iff_lt_mul (by norm_num : 0 < 256)]
      calc n < 256 ^ (k + 1) := h
        _ = 256 ^ k * 256 := by ring
    have : fromLE (toLE k (n / 256)) = n / 256 := ih _ hdiv
    simp [toLE, fromLE] at this ⊢
    rw [this]
    omega

theorem readBytes_append (k : Nat) (xs rest : List Nat) (h : xs.length = k) :
    readBytes k (xs ++ rest) = some (xs, rest) := by
  subst h
  simp [readBytes, List.take_left, List.drop_left]

theorem readBytes_exact (k : Nat) (xs : List Nat) (h : xs.length = k) :
    readBytes k xs = some (xs, []) := by
  have := readBytes_append k xs [] h
  simpa using this

theorem readLenStr_append (s rest : List Nat) (h : s.length < 256 ^ 4) :
    readLenStr (lenStr s ++ rest) = some (s, rest) := by
  unfold readLenStr lenStr
  rw [List.append_assoc, readBytes_append 4 (toLE 4 s.length) (s ++ rest) (toLE_length 4 _)]
  simp only
  rw [fromLE_toLE 4 s.length h, readBytes_append s.length s rest rfl]

/-! ## Claim theorems -/

/-- Claim C3: for every payload whose first 8 bytes, read as a little-endian
64-bit integer, differ from the fixed create-instruction discriminator
8530921459188068891, the decoder yields no event (`none`) and raises no
error (the decoder is a total function into `Option`). -/
theorem c3_discriminator_mismatch (data : List Nat) (hlen : 8 ≤ data.length)
    (hne : fromLE (data.take 8) ≠ CREATE_DISCRIMINATOR) :
    parseCreateInstruction data = none := by
  have h8 : readBytes 8 data = some (data.take 8, data.drop 8) := by
    simp [readBytes, hlen]
  unfold parseCreateInstruction
  rw [h8]
  simp [hne]

/-- Claim C3 witness: an 8-byte all-zero payload has a mismatching
discriminator and decodes to no event. -/
theorem c3_discriminator_mismatch_witness :
    parseCreateInstruction [0, 0, 0, 0, 0, 0, 0, 0] = none :=
  c3_discriminator_mismatch [0, 0, 0, 0, 0, 0, 0, 0] (by decide) (by decide)

/-- Claim C6: for every well-formed create event (string lengths fit the
4-byte prefix, addresses exactly 32 bytes), decoding the encoded
create-instruction payload returns exactly the same structured fields:
name, symbol, uri and the mint, bonding-curve and creator addresses. -/
theorem c6_decode_encode_roundtrip (e : CreateFields) (h : WellFormedCreate e) :
    parseCreateInstruction (encodeCreateInstruction e) = some e := by
  obtain ⟨name, symbol, uri, mint, bonding, creator⟩ := e
  obtain ⟨h1, h2, h3, h4, h5, h6⟩ := h
  unfold parseCreateInstruction encodeCreateInstruction
  rw [readBytes_append 8 _ _ (toLE_length 8 _)]
  dsimp only
  rw [fromLE_toLE 8 CREATE_DISCRIMINATOR (by decide), if_pos rfl]
  rw [readLenStr_append _ _ h1]
  dsimp only
  rw [readLenStr_append _ _ h2]
  dsimp only
  rw [readLenStr_append _ _ h3]
  dsimp only
  rw [readBytes_append 32 _ _ h4]
  dsimp only
  rw [readBytes_append 32 _ _ h5]
  dsimp only
  rw [readBytes_exact 32 _ h6]

/-- Concrete create fields used to witness the round-trip claim. -/
def c6SampleFields : CreateFields :=
  ⟨[68, 111, 103, 101], [68, 71], [104, 116, 116, 112],
   List.replicate 32 7, List.replicate 32 8, List.replicate 32 9⟩

/-- Claim C6 witness: the round-trip at a concrete well-formed event. -/
theorem c6_decode_encode_roundtrip_witness :
    WellFormedCreate c6SampleFields ∧
      parseCreateInstruction (encodeCreateInstruction c6SampleFields) = some c6SampleFields :=
  ⟨by unfold WellFormedCreate; decide,
   c6_decode_encode_roundtrip c6SampleFields (by unfold WellFormedCreate; decide)⟩

/-- Claim C2: filter evaluation applies the checks in the fixed order
blocked-word, name-length, creator-allowlist, keyword-match with
first-match-wins short-circuit (determinism is definitional, since
`applyFilters` is a pure function of the event and the configuration): an
event whose name contains both a blocked word and a configured required
keyword is rejected as `BlockedWord`, never passed and never rejected as
`NoKeywordMatch`. -/
theorem c2_filter_order (e : CreationEvent) (c : FilterConfig)
    (hb : ∃ w ∈ c.blockedWords, kwMatch w e.name = true)
    (_hk : ∃ k ∈ c.nameContains, kwMatch k e.name = true) :
    applyFilters e c = .Reject .BlockedWord ∧
      applyFilters e c ≠ .Pass ∧
      applyFilters e c ≠ .Reject .NoKeywordMatch := by
  obtain ⟨w, hw, hmatch⟩ := hb
  have hhit : blockedHit c e = true := by
    unfold blockedHit
    rw [List.any_eq_true]
    exact ⟨w, hw, by simp [hmatch]⟩
  have hres : applyFilters e c = .Reject .BlockedWord := by
    unfold applyFilters
    rw [if_pos hhit]
  refine ⟨hres, ?_, ?_⟩ <;> rw [hres] <;> decide

/-- Concrete event used to witness the filter claims: lowercase name
containing both the blocked word and the keyword. -/
def c2SampleEvent : CreationEvent :=
  ⟨['s', 'i', 'g'], ['s', 'c', 'a', 'm', 'd', 'o', 'g', 'e'], ['D', 'G'],
   [], [], [], [], ['c', 'r'], 0⟩

/-- Configuration used to witness the filter-order claim. -/
def c2SampleConfig : FilterConfig :=
  ⟨[['d', 'o', 'g', 'e']], [], [['s', 'c', 'a', 'm']], [], none, none⟩

/-- Claim C2 witness: a name containing both the blocked word scam and the
required keyword doge is rejected as `BlockedWord`. -/
theorem c2_filter_order_witness :
    applyFilters c2SampleEvent c2SampleConfig = .Reject .BlockedWord ∧
      applyFilters c2SampleEvent c2SampleConfig ≠ .Pass ∧
      applyFilters c2SampleEvent c2SampleConfig ≠ .Reject .NoKeywordMatch :=
  c2_filter_order c2SampleEvent c2SampleConfig (by decide) (by decide)

/-- Claim C7: a filter configuration with all criteria unconfigured passes
every event, and evaluation is total — for every well-formed event and
configuration it yields either `Pass` or some `Reject` reason (it is a Lean
function, so it cannot throw). -/
theorem c7_empty_filter_total :
    (∀ (e : CreationEvent) (c : FilterConfig),
        c.nameContains = [] → c.symbolContains = [] → c.blockedWords = [] →
        c.creatorAllowlist = [] → c.minNameLength = none → c.maxNameLength = none →
        applyFilters e c = .Pass) ∧
    (∀ (e : CreationEvent) (c : FilterConfig),
        applyFilters e c = .Pass ∨ ∃ r, applyFilters e c = .Reject r) := by
  constructor
  · intro e c h1 h2 h3 h4 h5 h6
    unfold applyFilters blockedHit lengthBad creatorBad keywordBad
    simp [h1, h2, h3, h4, h5, h6]
  · intro e c
    cases h : applyFilters e c with
    | Pass => exact Or.inl rfl
    | Reject r => exact Or.inr ⟨r, rfl⟩

/-- The fully unconfigured filter configuration. -/
def emptyFilterConfig : FilterConfig := ⟨[], [], [], [], none, none⟩

/-- Claim C7 witness: the unconfigured configuration passes a concrete event. -/
theorem c7_empty_filter_total_witness :
    applyFilters c2SampleEvent emptyFilterConfig = .Pass :=
  c7_empty_filter_total.1 c2SampleEvent emptyFilterConfig rfl rfl rfl rfl rfl rfl

/-- Claim C4: the rate limiter admits exactly when fewer than
`maxPerWindow` admissions lie in the trailing window and at least
`minSpacing` elapsed since the last admission; and with `maxPerWindow` 3,
`windowDuration` 60, `minSpacing` 0, of five events submitted at the same
instant exactly the first three are admitted and the fourth and fifth are
dropped with `RateLimitDrop`. -/
theorem c4_rate_limiter :
    (∀ (cfg : RateLimitConfig) (now : Nat) (st : RateLimitState),
        (rlSubmit cfg now st).1 = .Admit ↔
          (windowCount cfg now st < cfg.maxPerWindow ∧ spacingOk cfg now st = true)) ∧
    runSubmissions ⟨3, 60, 0⟩ [100, 100, 100, 100, 100] ⟨[]⟩ =
      [.Admit, .Admit, .Admit, .RateLimitDrop, .RateLimitDrop] := by
  constructor
  · intro cfg now st
    unfold rlSubmit
    split_ifs with h
    · simp [h]
    · simp [h]
  · decide

/-- Claim C5: a delivery attempt observing a response in the classes the
taxonomy covers is classified `Success` exactly on 2xx, `TransientFailure`
exactly on network error, timeout, 429 or 5xx, and `PermanentFailure`
exactly on a 4xx other than 429. -/
theorem c5_outcome_classification (r : HttpResult) (h : specCovered r = true) :
    (classifyOutcome r = .Success ↔ is2xxResult r) ∧
    (classifyOutcome r = .TransientFailure ↔ isTransientCase r) ∧
    (classifyOutcome r = .PermanentFailure ↔ isPlain4xx r) := by
  cases r with
  | netError => simp [classifyOutcome, is2xxResult, isTransientCase, isPlain4xx]
  | timeout => simp [classifyOutcome, is2xxResult, isTransientCase, isPlain4xx]
  | status code =>
    simp only [specCovered, decide_eq_true_eq] at h
    simp only [classifyOutcome, is2xxResult, isTransientCase, isPlain4xx]
    split_ifs with h1 h2 <;>
      refine ⟨?_, ?_, ?_⟩ <;> constructor <;> intro hh <;> first
        | rfl
        | omega
        | (exact absurd rfl (by intro hcon; cases hcon))
        | (cases hh)

/-- Claim C5 witness: a 404 response is covered by the taxonomy and is
classified as a permanent failure exactly as the claim states. -/
theorem c5_outcome_classification_witness :
    specCovered (.status 404) = true ∧
      ((classifyOutcome (.status 404) = .Success ↔ is2xxResult (.status 404)) ∧
       (classifyOutcome (.status 404) = .TransientFailure ↔ isTransientCase (.status 404)) ∧
       (classifyOutcome (.status 404) = .PermanentFailure ↔ isPlain4xx (.status 404))) :=
  ⟨by decide, c5_outcome_classification (.status 404) (by decide)⟩

/-- Claim C1 counterexample: at the documented sample token, the rendered
generic-webhook payload has top-level `alert_type`
`pump_fun_token_launch`, not `creation_event`, and its token key set is
not the canonical nine-key schema of the spec (it also carries
`pump_fun_url` and `solscan_url`). -/
theorem c1_payload_schema_counterexample :
    alertTypeStrOf (renderGenericWebhook sampleTokenInfo "2025-07-12T23:45:30.123456") ≠
        some "creation_event" ∧
      alertTypeStrOf (renderGenericWebhook sampleTokenInfo "2025-07-12T23:45:30.123456") =
        some "pump_fun_token_launch" ∧
      tokenKeysOf (renderGenericWebhook sampleTokenInfo "2025-07-12T23:45:30.123456") ≠
        specTokenKeys := by
  refine ⟨by decide, rfl, by decide⟩

/-- Claim C1 (amended): for every token and timestamp, the generic-webhook
payload is a JSON document whose top-level `alert_type` equals
`pump_fun_token_launch`, whose top-level keys are exactly `alert_type`,
`timestamp`, `token`, and whose token object carries exactly the nine
canonical fields plus `pump_fun_url` and `solscan_url`; each of the nine
fields renders as the empty string when its upstream data is absent, and
no key is ever omitted. -/
theorem c1_payload_schema_amended (t : TokenInfo) (ts : String) :
    alertTypeStrOf (renderGenericWebhook t ts) = some "pump_fun_token_launch" ∧
    topKeys (renderGenericWebhook t ts) = ["alert_type", "timestamp", "token"] ∧
    tokenKeysOf (renderGenericWebhook t ts) = specTokenKeys ++ ["pump_fun_url", "solscan_url"] ∧
    (t.name = none → tokenFieldStr (renderGenericWebhook t ts) "name" = some "") ∧
    (t.symbol = none → tokenFieldStr (renderGenericWebhook t ts) "symbol" = some "") ∧
    (t.mintAddress = none → tokenFieldStr (renderGenericWebhook t ts) "mint_address" = some "") ∧
    (t.creatorAddress = none →
      tokenFieldStr (renderGenericWebhook t ts) "creator_address" = some "") ∧
    (t.bondingCurve = none →
      tokenFieldStr (renderGenericWebhook t ts) "bonding_curve" = some "") ∧
    (t.associatedBondingCurve = none →
      tokenFieldStr (renderGenericWebhook t ts) "associated_bonding_curve" = some "") ∧
    (t.metadataUri = none → tokenFieldStr (renderGenericWebhook t ts) "metadata_uri" = some "") ∧
    (t.transactionSignature = none →
      tokenFieldStr (renderGenericWebhook t ts) "transaction_signature" = some "") ∧
    (t.launchTime = none → tokenFieldStr (renderGenericWebhook t ts) "launch_time" = some "") := by
  obtain ⟨n, s, m, cr, b, a, u, sg, l⟩ := t
  refine ⟨rfl, rfl, rfl, ?_, ?_, ?_, ?_, ?_, ?_, ?_, ?_, ?_⟩ <;>
    (intro h; subst h; rfl)

/-- Claim C1 witness: at the all-absent token, the payload keeps the fixed
alert type and renders the name as the empty string. -/
theorem c1_payload_schema_witness :
    alertTypeStrOf (renderGenericWebhook emptyTokenInfo "T") = some "pump_fun_token_launch" ∧
      tokenFieldStr (renderGenericWebhook emptyTokenInfo "T") "name" = some "" :=
  ⟨(c1_payload_schema_amended emptyTokenInfo "T").1,
   (c1_payload_schema_amended emptyTokenInfo "T").2.2.2.1 rfl⟩

/-- Claim C8: a POST /ingest request whose JSON body is not an array is
acknowledged with count 1 when the body is truthy and 0 otherwise, while
the event store is left unchanged, so the body is never returned by
GET /api/events. -/
theorem c8_ingest_non_array (evs : List ElizaEvent) (now : Nat) (body : JVal)
    (q : SinceParam) (h : isArrB body = false) :
    ingestHandler evs now body = (evs, if jsTruthy body then 1 else 0) ∧
      getEventsHandler (ingestHandler evs now body).1 q = getEventsHandler evs q := by
  cases body <;> simp_all [ingestHandler, isArrB]

/-- Claim C8 witness: a single truthy non-array object is acknowledged
with count 1 and the store stays empty. -/
theorem c8_ingest_non_array_witness :
    ingestHandler [] 0 (.jObj []) = ([], if jsTruthy (.jObj []) then 1 else 0) ∧
      getEventsHandler (ingestHandler [] 0 (.jObj [])).1 .absent =
        getEventsHandler [] .absent :=
  c8_ingest_non_array [] 0 (.jObj []) .absent rfl

/-- One capped push keeps the store within `MAX_EVENTS`. -/
theorem pushCap_length_le (evs : List ElizaEvent) (e : ElizaEvent)
    (h : evs.length ≤ MAX_EVENTS) : (pushCap evs e).length ≤ MAX_EVENTS := by
  simp only [pushCap, MAX_EVENTS] at *
  split_ifs with hgt
  · simp only [List.length_drop, List.length_append, List.length_singleton]
    omega
  · simp only [List.length_append, List.length_singleton] at hgt ⊢
    omega

/-- Folding capped pushes over a list of payloads keeps the store within
`MAX_EVENTS`. -/
theorem foldl_pushCap_le (items : List JVal) (now : Nat) :
    ∀ evs : List ElizaEvent, evs.length ≤ MAX_EVENTS →
      (items.foldl (fun acc p => pushCap acc ⟨now, p⟩) evs).length ≤ MAX_EVENTS := by
  induction items with
  | nil => intro evs h; simpa using h
  | cons p ps ih => intro evs h; exact ih _ (pushCap_length_le _ _ h)

/-- Claim C9: both the /ingest handler (push then shift per element) and
the /api/seed handler (push then splice down to the bound) preserve the
invariant that the store holds at most `MAX_EVENTS` (500) events. -/
theorem c9_events_bounded (evs : List ElizaEvent) (now : Nat) (body : JVal)
    (h : evs.length ≤ MAX_EVENTS) :
    (ingestHandler evs now body).1.length ≤ MAX_EVENTS ∧
      (seedHandler evs now).length ≤ MAX_EVENTS := by
  constructor
  · cases body with
    | jArr items => exact foldl_pushCap_le items now evs h
    | jNull => simpa [ingestHandler] using h
    | jBool b => simpa [ingestHandler] using h
    | jNum n => simpa [ingestHandler] using h
    | jStr s => simpa [ingestHandler] using h
    | jObj fields => simpa [ingestHandler] using h
  · simp only [seedHandler, MAX_EVENTS] at *
    split_ifs with hgt
    · simp only [List.length_drop]
      omega
    · simp only [List.length_append, List.length_singleton] at hgt ⊢
      omega

/-- Claim C9 witness: both handlers respect the bound starting from the
empty store. -/
theorem c9_events_bounded_witness :
    (ingestHandler [] 0 .jNull).1.length ≤ MAX_EVENTS ∧
      (seedHandler [] 0).length ≤ MAX_EVENTS :=
  c9_events_bounded [] 0 .jNull (by decide)

/-- Claim C10: GET /api/events returns exactly the stored events whose
`ts` is strictly greater than the effective `since` value; an absent or
non-numeric `since` is treated as 0, and an event whose `ts` equals
`since` is excluded. -/
theorem c10_events_since_filter (evs : List ElizaEvent) (q : SinceParam) (e : ElizaEvent) :
    (e ∈ getEventsHandler evs q ↔ e ∈ evs ∧ effSince q < (e.ts : Int)) ∧
      ((e.ts : Int) = effSince q → e ∉ getEventsHandler evs q) ∧
      effSince .absent = 0 ∧ effSince .nonNumeric = 0 := by
  refine ⟨?_, ?_, rfl, rfl⟩
  · simp [getEventsHandler, List.mem_filter]
  · intro hts hmem
    simp [getEventsHandler, List.mem_filter] at hmem
    omega

/-- Claim C10 witness: an event whose `ts` equals the numeric `since`
parameter is not returned. -/
theorem c10_events_since_filter_witness :
    (⟨5, .jNull⟩ : ElizaEvent) ∉ getEventsHandler [⟨5, .jNull⟩] (.value 5) :=
  (c10_events_since_filter [⟨5, .jNull⟩] (.value 5) ⟨5, .jNull⟩).2.1 (by decide)
